import Mathlib

/-!
Shallow embedding of `simple_brightness_adjust` (src/lib/monitor_detector.py and
src/lib/ddcutil_wrapper.py) and proofs about it.

Conventions of the embedding:
* Python strings are Lean `String` / `List Char`; the regular expressions of the
  source are translated pattern-by-pattern into explicit leftmost-search matchers.
* Wall-clock time is modelled as `Int` "time units"; `time.time()` becomes an
  explicit `now` parameter.
* The external `ddcutil` subprocess is modelled as a map from attempt index to a
  `CallOutcome`; file IO of the cache is modelled by an explicit `FileState`.
* Python exceptions become explicit `Except` results.
-/

namespace BrightnessAdjust

/-- Python `\s` / `str.strip()` whitespace for the ASCII range:
space, tab, newline, carriage return, vertical tab, form feed. -/
def pyIsSpace (c : Char) : Bool :=
  c = ' ' || c = '\t' || c = '\n' || c = '\r' || c = '\x0b' || c = '\x0c'

/-- Python `str.strip()` on a character list. -/
def pyStrip (l : List Char) : List Char :=
  ((l.dropWhile pyIsSpace).reverse.dropWhile pyIsSpace).reverse

/-- Python `str.strip()` on a `String`. -/
def pyStripStr (s : String) : String :=
  String.mk (pyStrip s.toList)

/-- Python `\w` (word character), ASCII range: letters, digits, underscore. -/
def pyIsWord (c : Char) : Bool :=
  c.isAlphanum || c = '_'

/-- Python `str.split(sep)` for a one-character separator: splitting never
returns an empty list, and trailing separators produce trailing empty pieces. -/
def splitOnChar (sep : Char) : List Char → List (List Char)
  | [] => [[]]
  | c :: rest =>
    match splitOnChar sep rest with
    | [] => [[]]
    | h :: t => if c = sep then [] :: h :: t else (c :: h) :: t

/-- Match a literal (case sensitive) at the head of `s`; return the rest. -/
def dropLit : List Char → List Char → Option (List Char)
  | [], s => some s
  | _ :: _, [] => none
  | c :: cs, x :: xs => if c = x then dropLit cs xs else none

/-- Match a literal at the head of `s` ignoring ASCII case (re.IGNORECASE). -/
def dropLitCI : List Char → List Char → Option (List Char)
  | [], s => some s
  | _ :: _, [] => none
  | c :: cs, x :: xs => if c.toLower = x.toLower then dropLitCI cs xs else none

/-- Semantics of `re.search`: try the anchored matcher `m` at every start
position, left to right (including the end-of-string position). -/
def searchWith (m : List Char → Option α) : List Char → Option α
  | [] => m []
  | c :: rest =>
    match m (c :: rest) with
    | some v => some v
    | none => searchWith m rest

/-- Anchored matcher for `I2C bus:\s+(/dev/i2c-\d+)`: returns group 1.
`\s+` is greedy; the following literal `/dev/i2c-` is not whitespace and
`\d+` is greedy, so no backtracking can occur. -/
def busMatchAt (s : List Char) : Option (List Char) :=
  match dropLit "I2C bus:".toList s with
  | none => none
  | some r1 =>
    if (r1.takeWhile pyIsSpace).isEmpty then none
    else
      match dropLit "/dev/i2c-".toList (r1.dropWhile pyIsSpace) with
      | none => none
      | some r2 =>
        let ds := r2.takeWhile Char.isDigit
        if ds.isEmpty then none else some ("/dev/i2c-".toList ++ ds)

/-- Anchored matcher for `Mfg id:\s+(\w+)` with `re.IGNORECASE`. -/
def mfgMatchAt (s : List Char) : Option (List Char) :=
  match dropLitCI "Mfg id:".toList s with
  | none => none
  | some r1 =>
    if (r1.takeWhile pyIsSpace).isEmpty then none
    else
      let ws := r1.dropWhile pyIsSpace
      let g := ws.takeWhile pyIsWord
      if g.isEmpty then none else some g

/-- Anchored matcher for `<lit>\s+(.+)`: greedy `\s+`, then `.+` captures to
the end of the line (lines contain no newline).  When nothing but whitespace
follows the literal, the regex engine backtracks and `(.+)` captures the last
whitespace character, provided at least two whitespace characters are present. -/
def tailGroupAt (lit : List Char) (s : List Char) : Option (List Char) :=
  match dropLit lit s with
  | none => none
  | some r =>
    let w := r.takeWhile pyIsSpace
    let rest := r.dropWhile pyIsSpace
    if w.isEmpty then none
    else if rest.isEmpty then
      if 2 ≤ w.length then some (w.drop (w.length - 1)) else none
    else some rest

/-- Anchored matcher for `Model:\s+(.+)`. -/
def modelMatchAt (s : List Char) : Option (List Char) :=
  tailGroupAt "Model:".toList s

/-- Anchored matcher for `Serial number:\s+(.+)`. -/
def serialMatchAt (s : List Char) : Option (List Char) :=
  tailGroupAt "Serial number:".toList s

/-- The `Monitor` dataclass of monitor_detector.py, at the string-typed
instantiation the detector produces. -/
structure Monitor where
  manufacturer : String
  model : String
  serial : String
  i2c_bus : String
  stable_id : String
deriving DecidableEq

/-- Constructor `Monitor.__post_init__`: dataclass construction derives the stable id
from manufacturer/model/serial when the supplied `stable_id` is falsy
(the empty string). -/
def Monitor.init (manufacturer model serial i2c_bus stable_id : String) : Monitor :=
  if stable_id = "" then
    ⟨manufacturer, model, serial, i2c_bus, manufacturer ++ "-" ++ model ++ "-" ++ serial⟩
  else
    ⟨manufacturer, model, serial, i2c_bus, stable_id⟩

/-- The `current_monitor` accumulator dict of `parse_ddcutil_detect`.  The
dict is either empty (modelled as `none` at the use sites) or was created from
a bus line, so it always holds `i2c_bus`; the other fields are optional. -/
structure Block where
  i2c_bus : String
  manufacturer : Option String
  model : Option String
  serial : Option String
deriving DecidableEq

/-- Check `_is_monitor_complete`: all four required fields are present. -/
def Block.isComplete (b : Block) : Bool :=
  b.manufacturer.isSome && b.model.isSome && b.serial.isSome

/-- Combination of `_is_monitor_complete` and `_create_monitor`: builds the Monitor
(with `stable_id=""`, so `__post_init__` derives it) when the accumulator is
complete, else nothing. -/
def finalizeBlock (b : Block) : Option Monitor :=
  match b.manufacturer, b.model, b.serial with
  | some mfg, some mo, some se => some (Monitor.init mfg mo se b.i2c_bus "")
  | _, _, _ => none

/-- One iteration of the line loop of `parse_ddcutil_detect`: strip the line,
try the bus pattern (starting a new block and possibly emitting the finished
one), else try the manufacturer, model, serial patterns in that order — the
field branches run only when the accumulator dict is non-empty (truthy). -/
def processLine (st : Option Block) (rawLine : List Char) : Option Block × Option Monitor :=
  let line := pyStrip rawLine
  match searchWith busMatchAt line with
  | some bus =>
    let emitted := match st with
      | some b => finalizeBlock b
      | none => none
    (some ⟨String.mk bus, none, none, none⟩, emitted)
  | none =>
    match st with
    | none => (none, none)
    | some b =>
      match searchWith mfgMatchAt line with
      | some g => (some { b with manufacturer := some (String.mk g) }, none)
      | none =>
        match searchWith modelMatchAt line with
        | some g => (some { b with model := some (String.mk (pyStrip g)) }, none)
        | none =>
          match searchWith serialMatchAt line with
          | some g => (some { b with serial := some (String.mk (pyStrip g)) }, none)
          | none => (some b, none)

/-- The scanning phase of `parse_ddcutil_detect`: split the output on
newlines, run the line loop, and flush the trailing accumulator. -/
def scanMonitors (output : String) : List Monitor :=
  let step := fun (p : Option Block × List Monitor) ln =>
    let q := processLine p.1 ln
    (q.1, match q.2 with | some m => p.2 ++ [m] | none => p.2)
  let r := (splitOnChar '\n' output.toList).foldl step (none, [])
  match r.1 with
  | some b =>
    match finalizeBlock b with
    | some m => r.2 ++ [m]
    | none => r.2
  | none => r.2

/-- Python string `<`: lexicographic comparison by code point. -/
def charListLt : List Char → List Char → Bool
  | [], [] => false
  | [], _ :: _ => true
  | _ :: _, [] => false
  | c :: cs, d :: ds =>
    if c.toNat < d.toNat then true
    else if d.toNat < c.toNat then false
    else charListLt cs ds

/-- Python string `<` on `String`. -/
def strLt (a b : String) : Bool :=
  charListLt a.toList b.toList

/-- Insert a monitor after every element whose key is `≤` its key: the
insertion step of a stable ascending sort by `stable_id`. -/
def insertSorted (m : Monitor) : List Monitor → List Monitor
  | [] => [m]
  | x :: xs =>
    if strLt m.stable_id x.stable_id then m :: x :: xs else x :: insertSorted m xs

/-- Model of `monitors.sort(key=lambda m: m.stable_id)`: Python's sort is the stable
ascending sort by the key, computed here by stable insertion of each element
in input order. -/
def sortMonitors (l : List Monitor) : List Monitor :=
  l.foldl (fun acc m => insertSorted m acc) []

/-- Expression `monitor.i2c_bus.split('-')[-1]`: the piece after the last dash. -/
def busSuffix (m : Monitor) : String :=
  match (splitOnChar '-' m.i2c_bus.toList).getLast? with
  | some l => String.mk l
  | none => ""

/-- The id a duplicate is rewritten to: `f"{monitor.stable_id}-bus{bus_num}"`. -/
def suffixedId (m : Monitor) : String :=
  m.stable_id ++ "-bus" ++ busSuffix m

/-- The duplicate-disambiguation pass of `parse_ddcutil_detect`: one walk over
the sorted list with a set of already-seen ids; an id already seen gets the
bus suffix appended; the (possibly new) id is then recorded as seen. -/
def dedupGo (seen : List String) : List Monitor → List Monitor
  | [] => []
  | m :: ms =>
    let newId := if m.stable_id ∈ seen then suffixedId m else m.stable_id
    { m with stable_id := newId } :: dedupGo (newId :: seen) ms

/-- Function `parse_ddcutil_detect`: scan, sort by stable id, disambiguate duplicates. -/
def parse_ddcutil_detect (output : String) : List Monitor :=
  dedupGo [] (sortMonitors (scanMonitors output))

/-! ### Monitor cache (ddcutil_wrapper.py, class MonitorCache) -/

/-- JSON values as `json.load` produces them.  Numbers are modelled as `Int`
(time is measured in integer "time units" throughout the embedding). -/
inductive Json where
  | null
  | bool (b : Bool)
  | num (n : Int)
  | str (s : String)
  | arr (elems : List Json)
  | obj (fields : List (String × Json))

/-- Python dict lookup on the field list of a JSON object (when `json.load`
builds a dict from duplicate keys, the last occurrence wins). -/
def jLookup (k : String) (fields : List (String × Json)) : Option Json :=
  fields.foldl (fun acc p => if p.1 = k then some p.2 else acc) none

/-- Python truthiness of a JSON-decoded value (`if not self.stable_id`). -/
def jFalsy : Json → Bool
  | .null => true
  | .bool b => !b
  | .num n => n = 0
  | .str s => s = ""
  | .arr xs => xs.isEmpty
  | .obj fs => fs.isEmpty

mutual
/-- Python `str()` of a JSON-decoded value. -/
def pyStr : Json → String
  | .null => "None"
  | .bool true => "True"
  | .bool false => "False"
  | .num n => toString n
  | .str s => s
  | .arr xs => "[" ++ String.intercalate ", " (pyReprList xs) ++ "]"
  | .obj fs => "\x7b" ++ String.intercalate ", " (pyObjItems fs) ++ "\x7d"

/-- Python `repr()` of a JSON-decoded value, as used when rendering list and
dict elements (string escaping inside `repr` is not modelled; no theorem
below evaluates these branches). -/
def pyRepr : Json → String
  | .null => "None"
  | .bool true => "True"
  | .bool false => "False"
  | .num n => toString n
  | .str s => "\x27" ++ s ++ "\x27"
  | .arr xs => "[" ++ String.intercalate ", " (pyReprList xs) ++ "]"
  | .obj fs => "\x7b" ++ String.intercalate ", " (pyObjItems fs) ++ "\x7d"

def pyReprList : List Json → List String
  | [] => []
  | j :: js => pyRepr j :: pyReprList js

def pyObjItems : List (String × Json) → List String
  | [] => []
  | (k, v) :: fs => ("\x27" ++ k ++ "\x27: " ++ pyRepr v) :: pyObjItems fs
end

/-- A `Monitor` instance as `MonitorCache.get` can build it: Python is
dynamically typed, so the five constructor arguments are whatever JSON values
the cache file held.  `Monitor` above is the string-typed special case. -/
structure PyMonitor where
  manufacturer : Json
  model : Json
  serial : Json
  i2c_bus : Json
  stable_id : Json

/-- Constructor `Monitor.__post_init__` at the dynamically-typed level: a falsy
`stable_id` is replaced by the f-string of the three identity fields. -/
def PyMonitor.init (manufacturer model serial i2c_bus stable_id : Json) : PyMonitor :=
  if jFalsy stable_id then
    ⟨manufacturer, model, serial, i2c_bus,
      Json.str (pyStr manufacturer ++ "-" ++ pyStr model ++ "-" ++ pyStr serial)⟩
  else
    ⟨manufacturer, model, serial, i2c_bus, stable_id⟩

/-- View of a string-typed `Monitor` as the dynamically-typed value the cache
round-trips (all five fields JSON strings). -/
def monitorToPy (m : Monitor) : PyMonitor :=
  ⟨.str m.manufacturer, .str m.model, .str m.serial, .str m.i2c_bus, .str m.stable_id⟩

/-- Python exceptions that can cross `MonitorCache.get`'s boundary, plus
`KeyError`, which its `except` clause catches. -/
inductive PyExc where
  | attributeError
  | typeError
  | keyError
deriving DecidableEq

/-- State of the persisted cache file as seen by one `get`. -/
inductive FileState where
  | missing               -- `CACHE_FILE.exists()` is false
  | unreadable            -- opening/reading raises OSError
  | invalid               -- `json.load` raises JSONDecodeError (e.g. truncated)
  | content (data : Json) -- `json.load` succeeds

/-- Expression `time.time() - data.get('timestamp', 0)`: subtraction accepts numbers and
bools (a bool is an int in Python); any other operand raises `TypeError`. -/
def jNumval : Json → Option Int
  | .num n => some n
  | .bool b => some (if b then 1 else 0)
  | _ => none

/-- Python iteration (`for m in data['monitors']`): lists yield elements,
strings yield one-character strings, dicts yield their keys; other values
raise `TypeError`. -/
def pyIter : Json → Except PyExc (List Json)
  | .arr xs => .ok xs
  | .str s => .ok (s.toList.map (fun c => Json.str (String.mk [c])))
  | .obj fs => .ok (fs.map (fun p => Json.str p.1))
  | _ => .error .typeError

/-- One element of the deserialising comprehension:
`Monitor(manufacturer=m['manufacturer'], ..., stable_id=m['stable_id'])`.
Subscripting a non-dict raises `TypeError`; a missing key raises `KeyError`. -/
def deserOne (m : Json) : Except PyExc PyMonitor :=
  match m with
  | .obj fs =>
    match jLookup "manufacturer" fs with
    | none => .error .keyError
    | some ma =>
      match jLookup "model" fs with
      | none => .error .keyError
      | some mo =>
        match jLookup "serial" fs with
        | none => .error .keyError
        | some se =>
          match jLookup "i2c_bus" fs with
          | none => .error .keyError
          | some bus =>
            match jLookup "stable_id" fs with
            | none => .error .keyError
            | some sid => .ok (PyMonitor.init ma mo se bus sid)
  | _ => .error .typeError

/-- The whole list comprehension: the first raising element aborts it. -/
def deserList : List Json → Except PyExc (List PyMonitor)
  | [] => .ok []
  | j :: js =>
    match deserOne j with
    | .error e => .error e
    | .ok p =>
      match deserList js with
      | .error e => .error e
      | .ok ps => .ok (p :: ps)

/-- Method `MonitorCache.get` (ddcutil_wrapper.py): returns `.ok none` for "absent",
`.ok (some ...)` for a fresh hit, and `.error e` when an exception escapes the
`except (json.JSONDecodeError, OSError, KeyError)` clause. -/
def cacheGet (cache_duration : Int) (file : FileState) (now : Int) :
    Except PyExc (Option (List PyMonitor)) :=
  match file with
  | .missing => .ok none
  | .unreadable => .ok none      -- OSError is caught
  | .invalid => .ok none         -- JSONDecodeError is caught
  | .content data =>
    match data with
    | .obj fields =>
      let ts := (jLookup "timestamp" fields).getD (Json.num 0)
      match jNumval ts with
      | none => .error .typeError   -- float minus non-number
      | some t =>
        if cache_duration < now - t then .ok none
        else
          match jLookup "monitors" fields with
          | none => .ok none        -- KeyError is caught
          | some mv =>
            match pyIter mv with
            | .error e => .error e
            | .ok items =>
              match deserList items with
              | .ok ps => .ok (some ps)
              | .error .keyError => .ok none   -- caught
              | .error e => .error e
    | _ => .error .attributeError  -- `data.get` on a non-dict

/-- The JSON object `MonitorCache.set` serialises for one monitor. -/
def pmToJson (p : PyMonitor) : Json :=
  .obj [("stable_id", p.stable_id), ("manufacturer", p.manufacturer),
        ("model", p.model), ("serial", p.serial), ("i2c_bus", p.i2c_bus)]

/-- The full document `MonitorCache.set` writes: timestamp plus the monitors'
five fields, in the order of the source. -/
def cacheData (monitors : List Monitor) (now : Int) : Json :=
  .obj [("timestamp", .num now),
        ("monitors", .arr (monitors.map (fun m => pmToJson (monitorToPy m))))]

/-- Method `MonitorCache.set` on its successful path: the cache file afterwards holds
the serialised document (an `OSError` during the write is caught and only
logged, leaving the previous file state — not needed by the theorems below). -/
def cacheSet (monitors : List Monitor) (now : Int) : FileState :=
  .content (cacheData monitors now)

/-! ### Brightness controller (ddcutil_wrapper.py) -/

/-- Outcome of one `subprocess.run` of ddcutil. -/
inductive CallOutcome where
  | timeout                                            -- subprocess.TimeoutExpired
  | notFound                                           -- FileNotFoundError
  | exit (returncode : Int) (stdout stderr : String)   -- process completed

/-- The Python exception types `get_brightness`/`set_brightness` raise. -/
inductive PyErr where
  | valueError (msg : String)
  | permissionError (msg : String)
  | runtimeError (msg : String)
deriving DecidableEq

/-- Observable side effects of one call: number of external invocations and
number of `time.sleep(0.1)` backoffs. -/
structure RunLog where
  calls : Nat
  sleeps : Nat
deriving DecidableEq

/-- Anchored matcher for `i2c-(\d+)` (group 1). -/
def busNumMatchAt (s : List Char) : Option (List Char) :=
  match dropLit "i2c-".toList s with
  | none => none
  | some r =>
    let ds := r.takeWhile Char.isDigit
    if ds.isEmpty then none else some ds

/-- Function `_extract_bus_number`: `re.search(r'i2c-(\d+)', i2c_bus)`, else
`ValueError(f"Invalid I2C bus format: {i2c_bus}")`. -/
def extract_bus_number (i2c_bus : String) : Except PyErr String :=
  match searchWith busNumMatchAt i2c_bus.toList with
  | some ds => .ok (String.mk ds)
  | none => .error (.valueError ("Invalid I2C bus format: " ++ i2c_bus))

/-- Python `str.lower()`, ASCII range. -/
def asciiLower (s : String) : String :=
  String.mk (s.toList.map Char.toLower)

/-- Python `needle in hay` on strings: substring containment. -/
def containsSub (needle : List Char) : List Char → Bool
  | [] => needle.isEmpty
  | c :: rest => needle.isPrefixOf (c :: rest) || containsSub needle rest

/-- Anchored matcher for `current value\s*=\s*(\d+)`. -/
def currentValueMatchAt (s : List Char) : Option (List Char) :=
  match dropLit "current value".toList s with
  | none => none
  | some r1 =>
    match r1.dropWhile pyIsSpace with
    | '=' :: r2 =>
      let ds := (r2.dropWhile pyIsSpace).takeWhile Char.isDigit
      if ds.isEmpty then none else some ds
    | _ => none

/-- Python `int()` of a digit string. -/
def digitsToNat (ds : List Char) : Nat :=
  ds.foldl (fun a c => a * 10 + (c.toNat - '0'.toNat)) 0

/-- The `PermissionError` message of both operations (`user` stands for
`os.getenv('USER')`). -/
def permissionMsg (i2c_bus user : String) : String :=
  "Permission denied accessing " ++ i2c_bus ++ ". Add user to i2c group: sudo usermod -aG i2c "
    ++ user ++ "\nThen log out and log back in."

/-- The retry loop of `get_brightness`.  `remaining` counts the iterations of
`range(max_retries)` still to run (including the current one), so the source's
`attempt < max_retries - 1` is `1 ≤ remaining - 1`, i.e. the `r+1` pattern
with `0 < r`.  When the loop runs out, the trailing
`raise RuntimeError("Failed to get brightness after retries")` fires. -/
def getLoop (i2c_bus user : String) (env : Nat → CallOutcome) :
    Nat → Nat → RunLog → Except PyErr Int × RunLog
  | _, 0, log => (.error (.runtimeError "Failed to get brightness after retries"), log)
  | attempt, r + 1, log =>
    let log1 : RunLog := ⟨log.calls + 1, log.sleeps⟩
    match env attempt with
    | .timeout =>
      if 0 < r then getLoop i2c_bus user env (attempt + 1) r log1
      else (.error (.runtimeError ("ddcutil getvcp timed out on " ++ i2c_bus)), log1)
    | .notFound =>
      (.error (.runtimeError "ddcutil not found. Install with: sudo apt install ddcutil"), log1)
    | .exit rc out err =>
      if rc ≠ 0 then
        let stderrL := (asciiLower err).toList
        if containsSub "permission denied".toList stderrL
            || containsSub "errno 13".toList stderrL then
          (.error (.permissionError (permissionMsg i2c_bus user)), log1)
        else if containsSub "invalid".toList stderrL
            || containsSub "unsupported".toList stderrL then
          (.error (.runtimeError ("Monitor on " ++ i2c_bus
            ++ " does not support DDC/CI brightness control (VCP 0x10)")), log1)
        else if 0 < r then
          getLoop i2c_bus user env (attempt + 1) r ⟨log1.calls, log1.sleeps + 1⟩
        else
          (.error (.runtimeError ("ddcutil getvcp failed: " ++ pyStripStr err)), log1)
      else
        match searchWith currentValueMatchAt out.toList with
        | some ds => (.ok (digitsToNat ds : Int), log1)
        | none =>
          (.error (.runtimeError ("Failed to parse brightness from: " ++ pyStripStr out)), log1)

/-- Function `get_brightness(i2c_bus, max_retries)`: extract the bus number, then run
the retry loop.  `env` gives the outcome of the external call at each attempt
index; the returned `RunLog` records invocations and sleeps. -/
def get_brightness (i2c_bus user : String) (env : Nat → CallOutcome)
    (max_retries : Nat) : Except PyErr Int × RunLog :=
  match extract_bus_number i2c_bus with
  | .error e => (.error e, ⟨0, 0⟩)
  | .ok _busNum => getLoop i2c_bus user env 0 max_retries ⟨0, 0⟩

/-- The retry loop of `set_brightness` (no unsupported/invalid branch, no
output parsing; success returns immediately). -/
def setLoop (i2c_bus user : String) (env : Nat → CallOutcome) :
    Nat → Nat → RunLog → Except PyErr Unit × RunLog
  | _, 0, log => (.error (.runtimeError "Failed to set brightness after retries"), log)
  | attempt, r + 1, log =>
    let log1 : RunLog := ⟨log.calls + 1, log.sleeps⟩
    match env attempt with
    | .timeout =>
      if 0 < r then setLoop i2c_bus user env (attempt + 1) r log1
      else (.error (.runtimeError ("ddcutil setvcp timed out on " ++ i2c_bus)), log1)
    | .notFound =>
      (.error (.runtimeError "ddcutil not found. Install with: sudo apt install ddcutil"), log1)
    | .exit rc _out err =>
      if rc ≠ 0 then
        let stderrL := (asciiLower err).toList
        if containsSub "permission denied".toList stderrL
            || containsSub "errno 13".toList stderrL then
          (.error (.permissionError (permissionMsg i2c_bus user)), log1)
        else if 0 < r then
          setLoop i2c_bus user env (attempt + 1) r ⟨log1.calls, log1.sleeps + 1⟩
        else
          (.error (.runtimeError ("ddcutil setvcp failed: " ++ pyStripStr err)), log1)
      else
        (.ok (), log1)

/-- Function `set_brightness(i2c_bus, value, max_retries)`: range check first
(`if not 0 <= value <= 100`), then bus extraction, then the retry loop. -/
def set_brightness (i2c_bus : String) (value : Int) (user : String)
    (env : Nat → CallOutcome) (max_retries : Nat) : Except PyErr Unit × RunLog :=
  if 0 ≤ value ∧ value ≤ 100 then
    match extract_bus_number i2c_bus with
    | .error e => (.error e, ⟨0, 0⟩)
    | .ok _busNum => setLoop i2c_bus user env 0 max_retries ⟨0, 0⟩
  else
    (.error (.valueError ("Brightness value must be 0-100, got " ++ toString value)), ⟨0, 0⟩)

end BrightnessAdjust


namespace BrightnessAdjust

/-! ### Predicates used to state the claims -/

/-- Formalisation of "ends in a (bus) number": the last character of the
identifier is a digit. -/
def endsInDigit (s : String) : Bool :=
  match s.toList.getLast? with
  | some c => c.isDigit
  | none => false

/-- No collision survives the one bus-suffix append: distinct monitors of the
list have distinct suffixed ids, and no monitor's suffixed id coincides with
another monitor's (derived) stable id. -/
def NoResidualCollisions (l : List Monitor) : Prop :=
  l.Pairwise (fun a b =>
    suffixedId a ≠ suffixedId b ∧ suffixedId a ≠ b.stable_id ∧ suffixedId b ≠ a.stable_id)

instance (l : List Monitor) : Decidable (NoResidualCollisions l) :=
  decidable_of_iff
    (l.Pairwise fun a b =>
      suffixedId a ≠ suffixedId b ∧ suffixedId a ≠ b.stable_id ∧ suffixedId b ≠ a.stable_id)
    Iff.rfl

/-! ### Helper lemmas -/

/-- Appending the bus suffix strictly lengthens the id, so the suffixed id
never equals the monitor's own current id. -/
theorem suffixedId_ne_stable_id (m : Monitor) : suffixedId m ≠ m.stable_id := by
  intro h
  have h2 := congrArg String.length h
  rw [suffixedId, String.length_append, String.length_append] at h2
  have h4 : ("-bus" : String).length = 4 := rfl
  rw [h4] at h2
  omega

/-- Main invariant of the disambiguation pass: if the suffixed ids neither
collide with each other nor with any derived id nor with the initial `seen`
set, the emitted ids are distinct and avoid `seen`. -/
theorem dedupGo_nodup :
    ∀ (l : List Monitor) (seen : List String),
      NoResidualCollisions l →
      (∀ m ∈ l, suffixedId m ∉ seen) →
      ((dedupGo seen l).map Monitor.stable_id).Nodup
        ∧ ∀ i ∈ (dedupGo seen l).map Monitor.stable_id, i ∉ seen := by
  intro l
  induction l with
  | nil => intro seen _ _; simp [dedupGo]
  | cons m l ih =>
    intro seen hP hseen
    rw [NoResidualCollisions, List.pairwise_cons] at hP
    obtain ⟨hPm, hPl⟩ := hP
    have hm : suffixedId m ∉ seen := hseen m (by simp)
    set newId := if m.stable_id ∈ seen then suffixedId m else m.stable_id with hnew
    have hnotin : newId ∉ seen := by
      rw [hnew]; split
      · exact hm
      · assumption
    have htail : ∀ m' ∈ l, suffixedId m' ∉ newId :: seen := by
      intro m' hm' hmem
      rcases List.mem_cons.mp hmem with heq | hin
      · rw [hnew] at heq
        rcases (hPm m' hm') with ⟨h1, _, h3⟩
        revert heq; split
        · intro heq; exact h1 heq.symm
        · intro heq; exact h3 heq
      · exact hseen m' (by simp [hm']) hin
    obtain ⟨ihNodup, ihAvoid⟩ := ih (newId :: seen) hPl htail
    constructor
    · rw [dedupGo]
      simp only [List.map_cons, List.nodup_cons]
      refine ⟨fun hmem => ?_, ihNodup⟩
      exact ihAvoid newId hmem (by simp)
    · intro i hi
      rw [dedupGo] at hi
      simp only [List.map_cons, List.mem_cons] at hi
      rcases hi with rfl | hi
      · exact hnotin
      · intro hbad; exact ihAvoid i hi (by simp [hbad])

/-- Unfolding `cacheGet` on a file of the shape `set` writes: the timestamp
lookup succeeds and the staleness test and deserialisation remain. -/
theorem cacheGet_content_eq (cd now t : Int) (js : List Json) :
    cacheGet cd (.content (.obj [("timestamp", .num t), ("monitors", .arr js)])) now
      = if cd < now - t then .ok none
        else
          match deserList js with
          | .ok ps => .ok (some ps)
          | .error .keyError => .ok none
          | .error e => .error e := rfl

/-- Deserialising the serialised form of one monitor object returns it intact
whenever its stored stable id is truthy. -/
theorem deserOne_pmToJson (p : PyMonitor) (h : jFalsy p.stable_id = false) :
    deserOne (pmToJson p) = .ok p := by
  have e : deserOne (pmToJson p)
      = .ok (PyMonitor.init p.manufacturer p.model p.serial p.i2c_bus p.stable_id) := rfl
  rw [e]
  simp [PyMonitor.init, h]

/-- List version of `deserOne_pmToJson`. -/
theorem deserList_pmToJson (ps : List PyMonitor) (h : ∀ p ∈ ps, jFalsy p.stable_id = false) :
    deserList (ps.map pmToJson) = .ok ps := by
  induction ps with
  | nil => rfl
  | cons p ps ih =>
    have hp : jFalsy p.stable_id = false := h p (by simp)
    have hs : ∀ q ∈ ps, jFalsy q.stable_id = false := fun q hq => h q (by simp [hq])
    simp only [List.map_cons, deserList, deserOne_pmToJson p hp, ih hs]

/-- A fresh read of what `set` wrote returns the stored monitors. -/
theorem cacheGet_cacheSet_fresh (ms : List Monitor) (t now cd : Int)
    (hids : ∀ m ∈ ms, m.stable_id ≠ "") (hfresh : ¬ cd < now - t) :
    cacheGet cd (cacheSet ms t) now = .ok (some (ms.map monitorToPy)) := by
  have hmap : cacheSet ms t
      = .content (.obj [("timestamp", .num t),
          ("monitors", .arr ((ms.map monitorToPy).map pmToJson))]) := by
    simp [cacheSet, cacheData, List.map_map]
  have hjf : ∀ p ∈ ms.map monitorToPy, jFalsy p.stable_id = false := by
    intro p hp
    rw [List.mem_map] at hp
    obtain ⟨m, hm, rfl⟩ := hp
    simp [monitorToPy, jFalsy, hids m hm]
  rw [hmap, cacheGet_content_eq, if_neg hfresh, deserList_pmToJson _ hjf]

/-- A stale read of what `set` wrote returns absent. -/
theorem cacheGet_cacheSet_stale (ms : List Monitor) (t now cd : Int)
    (hstale : cd < now - t) :
    cacheGet cd (cacheSet ms t) now = .ok none := by
  have hmap : cacheSet ms t
      = .content (.obj [("timestamp", .num t),
          ("monitors", .arr ((ms.map monitorToPy).map pmToJson))]) := by
    simp [cacheSet, cacheData, List.map_map]
  rw [hmap, cacheGet_content_eq, if_pos hstale]

end BrightnessAdjust

namespace BrightnessAdjust

/-! ### Claim theorems -/

set_option maxRecDepth 20000

/-- C9: parsing the four-line block `I2C bus: /dev/i2c-4`, `Mfg id: DEL`,
`Model: DELL U3419W`, `Serial number: 9B6SWP2` yields exactly one Monitor with
the four fields as given and stable_id `DEL-DELL U3419W-9B6SWP2`, the
dash-joined concatenation of manufacturer, model and serial. -/
theorem C9_scenario_single_block :
    parse_ddcutil_detect
        "I2C bus: /dev/i2c-4\nMfg id: DEL\nModel: DELL U3419W\nSerial number: 9B6SWP2"
      = [⟨"DEL", "DELL U3419W", "9B6SWP2", "/dev/i2c-4", "DEL-DELL U3419W-9B6SWP2"⟩] := by
  rfl

/-- C1 (counterexample): the claim "stable_ids of the returned monitors are
pairwise distinct for every input" fails: three identical complete blocks on
the same bus leave two monitors with id `A-B-C-bus3` after the single
disambiguation pass. -/
theorem C1_dedup_ids_counterexample :
    ((parse_ddcutil_detect
        "I2C bus: /dev/i2c-3\nMfg id: A\nModel: B\nSerial number: C\nI2C bus: /dev/i2c-3\nMfg id: A\nModel: B\nSerial number: C\nI2C bus: /dev/i2c-3\nMfg id: A\nModel: B\nSerial number: C").map
        Monitor.stable_id
      = ["A-B-C", "A-B-C-bus3", "A-B-C-bus3"])
    ∧ ¬ ((parse_ddcutil_detect
        "I2C bus: /dev/i2c-3\nMfg id: A\nModel: B\nSerial number: C\nI2C bus: /dev/i2c-3\nMfg id: A\nModel: B\nSerial number: C\nI2C bus: /dev/i2c-3\nMfg id: A\nModel: B\nSerial number: C").map
        Monitor.stable_id).Nodup := by
  constructor
  · rfl
  · decide

/-- C1 (amended): the single disambiguation pass guarantees pairwise-distinct
stable_ids only when no collision survives the one bus-suffix append, i.e.
when the suffixed ids of the sorted monitors neither collide with each other
nor with another monitor's derived id. -/
theorem C1_dedup_ids_nodup (s : String)
    (h : NoResidualCollisions (sortMonitors (scanMonitors s))) :
    ((parse_ddcutil_detect s).map Monitor.stable_id).Nodup :=
  (dedupGo_nodup (sortMonitors (scanMonitors s)) [] h (by simp)).1

/-- C1 witness: two blocks sharing manufacturer/model/serial on buses 3 and 4
satisfy the no-residual-collision hypothesis, and the parse yields distinct
ids. -/
theorem C1_dedup_ids_witness :
    NoResidualCollisions (sortMonitors (scanMonitors
        "I2C bus: /dev/i2c-3\nMfg id: A\nModel: B\nSerial number: C\nI2C bus: /dev/i2c-4\nMfg id: A\nModel: B\nSerial number: C"))
    ∧ ((parse_ddcutil_detect
        "I2C bus: /dev/i2c-3\nMfg id: A\nModel: B\nSerial number: C\nI2C bus: /dev/i2c-4\nMfg id: A\nModel: B\nSerial number: C").map
        Monitor.stable_id).Nodup :=
  ⟨by decide, C1_dedup_ids_nodup _ (by decide)⟩

/-- C4 (counterexample): the claim "the first matching line's value wins"
fails: a block with `Model: first` followed by `Model: second` finalises with
model `second`. -/
theorem C4_field_assignment_counterexample :
    ((parse_ddcutil_detect
        "I2C bus: /dev/i2c-4\nMfg id: AAA\nModel: first\nModel: second\nSerial number: S").map
        Monitor.model ≠ ["first"])
    ∧ ((parse_ddcutil_detect
        "I2C bus: /dev/i2c-4\nMfg id: AAA\nModel: first\nModel: second\nSerial number: S").map
        Monitor.model = ["second"]) := by
  constructor
  · decide
  · rfl

/-- C4 (amended): within one block the last matching line for a field wins:
processing a line that matches a field pattern assigns the captured value to
the accumulator field, overwriting whatever was there, for each of the
manufacturer, model and serial patterns (tried in that order). -/
theorem C4_field_assignment_overwrites (b : Block) (line : List Char) :
    (∀ g, searchWith busMatchAt (pyStrip line) = none →
        searchWith mfgMatchAt (pyStrip line) = some g →
        processLine (some b) line = (some { b with manufacturer := some (String.mk g) }, none))
    ∧ (∀ g, searchWith busMatchAt (pyStrip line) = none →
        searchWith mfgMatchAt (pyStrip line) = none →
        searchWith modelMatchAt (pyStrip line) = some g →
        processLine (some b) line = (some { b with model := some (String.mk (pyStrip g)) }, none))
    ∧ (∀ g, searchWith busMatchAt (pyStrip line) = none →
        searchWith mfgMatchAt (pyStrip line) = none →
        searchWith modelMatchAt (pyStrip line) = none →
        searchWith serialMatchAt (pyStrip line) = some g →
        processLine (some b) line = (some { b with serial := some (String.mk (pyStrip g)) }, none)) := by
  refine ⟨fun g h1 h2 => ?_, fun g h1 h2 h3 => ?_, fun g h1 h2 h3 h4 => ?_⟩
  · simp [processLine, h1, h2]
  · simp [processLine, h1, h2, h3]
  · simp [processLine, h1, h2, h3, h4]

/-- C4 witness: a `Model: second` line overwrites an accumulator that already
holds model `first`. -/
theorem C4_field_assignment_witness :
    searchWith busMatchAt (pyStrip "Model: second".toList) = none
    ∧ searchWith mfgMatchAt (pyStrip "Model: second".toList) = none
    ∧ searchWith modelMatchAt (pyStrip "Model: second".toList) = some "second".toList
    ∧ processLine (some ⟨"/dev/i2c-4", some "AAA", some "first", none⟩) "Model: second".toList
        = (some ⟨"/dev/i2c-4", some "AAA", some "second", none⟩, none) :=
  ⟨rfl, rfl, rfl,
    (C4_field_assignment_overwrites ⟨"/dev/i2c-4", some "AAA", some "first", none⟩
      "Model: second".toList).2.1 "second".toList rfl rfl rfl⟩

/-- C2 (counterexample): the claim "get() never raises for any state of the
cache file" fails: a file holding the valid JSON document `[]` (valid JSON of
an unexpected shape) makes `data.get('timestamp', 0)` raise an uncaught
AttributeError instead of returning absent. -/
theorem C2_cache_get_counterexample :
    cacheGet 60 (.content (.arr [])) 0 = .error .attributeError := rfl

/-- C2 (amended): `MonitorCache.get` returns absent, never an error, when the
file is missing, unreadable (OSError), not valid JSON, or holds an expired
timestamp; but valid JSON whose top-level value is not an object escapes the
except clause as an AttributeError. -/
theorem C2_cache_get_absent (cd now : Int) :
    cacheGet cd .missing now = .ok none
    ∧ cacheGet cd .unreadable now = .ok none
    ∧ cacheGet cd .invalid now = .ok none
    ∧ (∀ fields t, jLookup "timestamp" fields = some (.num t) → cd < now - t →
        cacheGet cd (.content (.obj fields)) now = .ok none)
    ∧ (∀ elems, cacheGet cd (.content (.arr elems)) now = .error .attributeError) := by
  refine ⟨rfl, rfl, rfl, fun fields t h1 h2 => ?_, fun elems => rfl⟩
  simp [cacheGet, h1, h2, jNumval]

/-- C2 witness: a file whose timestamp is 40 time units too old reads as
absent. -/
theorem C2_cache_get_witness :
    jLookup "timestamp" [("timestamp", Json.num 0)] = some (.num 0)
    ∧ (60 : Int) < 100 - 0
    ∧ cacheGet 60 (.content (.obj [("timestamp", Json.num 0)])) 100 = .ok none :=
  ⟨rfl, by decide,
    (C2_cache_get_absent 60 100).2.2.2.1 [("timestamp", Json.num 0)] 0 rfl (by decide)⟩

/-- C5: reading immediately after `set(ms)` (zero elapsed time) returns the
same monitor list, field for field and in order; a read strictly later than
`cache_duration` returns absent; a read at exactly `cache_duration` still
returns the list.  Monitors constructed by the program always have a
non-empty stable_id (`__post_init__`), which the hypothesis records. -/
theorem C5_cache_freshness (ms : List Monitor) (t now cd : Int)
    (hids : ∀ m ∈ ms, m.stable_id ≠ "") (hcd : 0 ≤ cd) :
    cacheGet cd (cacheSet ms t) t = .ok (some (ms.map monitorToPy))
    ∧ (cd < now - t → cacheGet cd (cacheSet ms t) now = .ok none)
    ∧ (now - t = cd → cacheGet cd (cacheSet ms t) now = .ok (some (ms.map monitorToPy))) :=
  ⟨cacheGet_cacheSet_fresh ms t t cd hids (by omega),
    fun h => cacheGet_cacheSet_stale ms t now cd h,
    fun h => cacheGet_cacheSet_fresh ms t now cd hids (by omega)⟩

/-- C5 witness: one concrete monitor round-trips at age 0 and at age exactly
60, and reads as absent at age 90. -/
theorem C5_cache_freshness_witness :
    cacheGet 60 (cacheSet [⟨"DEL", "DELL U3419W", "9B6SWP2", "/dev/i2c-4", "DEL-DELL U3419W-9B6SWP2"⟩] 10) 10
      = .ok (some [monitorToPy ⟨"DEL", "DELL U3419W", "9B6SWP2", "/dev/i2c-4", "DEL-DELL U3419W-9B6SWP2"⟩])
    ∧ cacheGet 60 (cacheSet [⟨"DEL", "DELL U3419W", "9B6SWP2", "/dev/i2c-4", "DEL-DELL U3419W-9B6SWP2"⟩] 10) 70
      = .ok (some [monitorToPy ⟨"DEL", "DELL U3419W", "9B6SWP2", "/dev/i2c-4", "DEL-DELL U3419W-9B6SWP2"⟩])
    ∧ cacheGet 60 (cacheSet [⟨"DEL", "DELL U3419W", "9B6SWP2", "/dev/i2c-4", "DEL-DELL U3419W-9B6SWP2"⟩] 10) 100
      = .ok none :=
  ⟨(C5_cache_freshness _ 10 70 60 (by decide) (by decide)).1,
    (C5_cache_freshness _ 10 70 60 (by decide) (by decide)).2.2 (by decide),
    (C5_cache_freshness _ 10 100 60 (by decide) (by decide)).2.1 (by decide)⟩

/-- C10: constructing a Monitor with a non-empty stable_id preserves it
verbatim (derivation from the identity fields happens only for the empty id),
and a fresh read of a well-formed cache file (timestamp plus monitor objects
with truthy stored stable_ids) returns exactly the stored field values —
stable_ids, suffixes included, are never recomputed. -/
theorem C10_stable_id_preserved :
    (∀ ma mo se bus sid : String, sid ≠ "" →
        (Monitor.init ma mo se bus sid).stable_id = sid)
    ∧ (∀ (cd now t : Int) (ps : List PyMonitor), ¬ cd < now - t →
        (∀ p ∈ ps, jFalsy p.stable_id = false) →
        cacheGet cd
            (.content (.obj [("timestamp", .num t), ("monitors", .arr (ps.map pmToJson))])) now
          = .ok (some ps)) := by
  constructor
  · intro ma mo se bus sid h
    simp [Monitor.init, h]
  · intro cd now t ps hfresh hids
    rw [cacheGet_content_eq, if_neg hfresh, deserList_pmToJson ps hids]

/-- C10 witness: a stored disambiguated id `A-B-C-bus9` comes back verbatim,
both through the constructor and through a cache read. -/
theorem C10_stable_id_preserved_witness :
    (Monitor.init "A" "B" "C" "/dev/i2c-9" "A-B-C-bus9").stable_id = "A-B-C-bus9"
    ∧ cacheGet 60
        (.content (.obj [("timestamp", .num 0),
          ("monitors", .arr ([⟨.str "A", .str "B", .str "C", .str "/dev/i2c-9", .str "A-B-C-bus9"⟩].map pmToJson))])) 5
      = .ok (some [⟨.str "A", .str "B", .str "C", .str "/dev/i2c-9", .str "A-B-C-bus9"⟩]) :=
  ⟨C10_stable_id_preserved.1 "A" "B" "C" "/dev/i2c-9" "A-B-C-bus9" (by decide),
    C10_stable_id_preserved.2 60 5 0 [⟨.str "A", .str "B", .str "C", .str "/dev/i2c-9", .str "A-B-C-bus9"⟩]
      (by decide) (by decide)⟩

end BrightnessAdjust

namespace BrightnessAdjust

/-! ### Retry-loop lemmas -/

/-- When every attempt times out, the get loop runs all remaining iterations,
making one call per iteration, sleeping never, and ends with the timeout
error naming the bus. -/
theorem getLoop_all_timeout (bus user : String) (env : Nat → CallOutcome)
    (henv : ∀ i, env i = .timeout) :
    ∀ (r attempt : Nat) (log : RunLog), 1 ≤ r →
      getLoop bus user env attempt r log
        = (.error (.runtimeError ("ddcutil getvcp timed out on " ++ bus)),
            ⟨log.calls + r, log.sleeps⟩) := by
  intro r
  induction r with
  | zero => intro attempt log h; exact absurd h (by omega)
  | succ n ih =>
    intro attempt log _
    simp only [getLoop, henv attempt]
    cases n with
    | zero => simp
    | succ m =>
      rw [if_pos (by omega : 0 < m + 1)]
      rw [ih (attempt + 1) ⟨log.calls + 1, log.sleeps⟩ (by omega)]
      have e : log.calls + 1 + (m + 1) = log.calls + (m + 1 + 1) := by omega
      simp [e]

/-- Analogue of `getLoop_all_timeout` for the set loop. -/
theorem setLoop_all_timeout (bus user : String) (env : Nat → CallOutcome)
    (henv : ∀ i, env i = .timeout) :
    ∀ (r attempt : Nat) (log : RunLog), 1 ≤ r →
      setLoop bus user env attempt r log
        = (.error (.runtimeError ("ddcutil setvcp timed out on " ++ bus)),
            ⟨log.calls + r, log.sleeps⟩) := by
  intro r
  induction r with
  | zero => intro attempt log h; exact absurd h (by omega)
  | succ n ih =>
    intro attempt log _
    simp only [setLoop, henv attempt]
    cases n with
    | zero => simp
    | succ m =>
      rw [if_pos (by omega : 0 < m + 1)]
      rw [ih (attempt + 1) ⟨log.calls + 1, log.sleeps⟩ (by omega)]
      have e : log.calls + 1 + (m + 1) = log.calls + (m + 1 + 1) := by omega
      simp [e]

/-- Every value the get loop returns through `.ok` was parsed as a digit
string, hence is non-negative. -/
theorem getLoop_ok_nonneg (bus user : String) (env : Nat → CallOutcome) :
    ∀ (r attempt : Nat) (log log' : RunLog) (v : Int),
      getLoop bus user env attempt r log = (.ok v, log') → 0 ≤ v := by
  intro r
  induction r with
  | zero =>
    intro attempt log log' v h
    simp [getLoop] at h
  | succ n ih =>
    intro attempt log log' v h
    simp only [getLoop] at h
    split at h
    · split at h
      · exact ih _ _ _ _ h
      · simp at h
    · simp at h
    · split at h
      · split at h
        · simp at h
        · split at h
          · simp at h
          · split at h
            · exact ih _ _ _ _ h
            · simp at h
      · split at h
        · simp only [Prod.mk.injEq, Except.ok.injEq] at h
          obtain ⟨h1, -⟩ := h
          omega
        · simp at h

/-- The call counter never decreases through the get loop. -/
theorem getLoop_calls_mono (bus user : String) (env : Nat → CallOutcome) :
    ∀ (r attempt : Nat) (log : RunLog),
      log.calls ≤ (getLoop bus user env attempt r log).2.calls := by
  intro r
  induction r with
  | zero => intro attempt log; simp [getLoop]
  | succ n ih =>
    intro attempt log
    simp only [getLoop]
    split
    · split
      · exact le_trans (Nat.le_succ _) (ih (attempt + 1) ⟨log.calls + 1, log.sleeps⟩)
      · exact Nat.le_succ _
    · exact Nat.le_succ _
    · split
      · split
        · exact Nat.le_succ _
        · split
          · exact Nat.le_succ _
          · split
            · exact le_trans (Nat.le_succ _) (ih (attempt + 1) ⟨log.calls + 1, log.sleeps + 1⟩)
            · exact Nat.le_succ _
      · split
        · exact Nat.le_succ _
        · exact Nat.le_succ _

/-- With at least one iteration to run, the get loop performs at least one
external call. -/
theorem getLoop_calls_pos (bus user : String) (env : Nat → CallOutcome)
    (attempt r : Nat) (log : RunLog) (hr : 1 ≤ r) :
    log.calls + 1 ≤ (getLoop bus user env attempt r log).2.calls := by
  cases r with
  | zero => exact absurd hr (by omega)
  | succ n =>
    simp only [getLoop]
    split
    · split
      · exact getLoop_calls_mono bus user env n (attempt + 1) ⟨log.calls + 1, log.sleeps⟩
      · exact Nat.le_refl _
    · exact Nat.le_refl _
    · split
      · split
        · exact Nat.le_refl _
        · split
          · exact Nat.le_refl _
          · split
            · exact getLoop_calls_mono bus user env n (attempt + 1) ⟨log.calls + 1, log.sleeps + 1⟩
            · exact Nat.le_refl _
      · split
        · exact Nat.le_refl _
        · exact Nat.le_refl _

/-- The call counter never decreases through the set loop. -/
theorem setLoop_calls_mono (bus user : String) (env : Nat → CallOutcome) :
    ∀ (r attempt : Nat) (log : RunLog),
      log.calls ≤ (setLoop bus user env attempt r log).2.calls := by
  intro r
  induction r with
  | zero => intro attempt log; simp [setLoop]
  | succ n ih =>
    intro attempt log
    simp only [setLoop]
    split
    · split
      · exact le_trans (Nat.le_succ _) (ih (attempt + 1) ⟨log.calls + 1, log.sleeps⟩)
      · exact Nat.le_succ _
    · exact Nat.le_succ _
    · split
      · split
        · exact Nat.le_succ _
        · split
          · exact le_trans (Nat.le_succ _) (ih (attempt + 1) ⟨log.calls + 1, log.sleeps + 1⟩)
          · exact Nat.le_succ _
      · exact Nat.le_succ _

/-- With at least one iteration to run, the set loop performs at least one
external call. -/
theorem setLoop_calls_pos (bus user : String) (env : Nat → CallOutcome)
    (attempt r : Nat) (log : RunLog) (hr : 1 ≤ r) :
    log.calls + 1 ≤ (setLoop bus user env attempt r log).2.calls := by
  cases r with
  | zero => exact absurd hr (by omega)
  | succ n =>
    simp only [setLoop]
    split
    · split
      · exact setLoop_calls_mono bus user env n (attempt + 1) ⟨log.calls + 1, log.sleeps⟩
      · exact Nat.le_refl _
    · exact Nat.le_refl _
    · split
      · split
        · exact Nat.le_refl _
        · split
          · exact setLoop_calls_mono bus user env n (attempt + 1) ⟨log.calls + 1, log.sleeps + 1⟩
          · exact Nat.le_refl _
      · exact Nat.le_refl _

end BrightnessAdjust

namespace BrightnessAdjust

/-- C3 (counterexample): the claim "get_brightness returns an integer in
[0,100] for any accepted output" fails: stdout reporting `current value = 150`
is accepted and 150 is returned unclamped. -/
theorem C3_brightness_range_counterexample :
    (get_brightness "/dev/i2c-4" "user"
        (fun _ => .exit 0
          "VCP code 0x10 (Brightness            ): current value = 150, max value = 100" "") 3).1
      = .ok 150
    ∧ ¬ ((150 : Int) ≤ 100) :=
  ⟨rfl, by decide⟩

/-- C3 (amended): whenever `get_brightness` returns normally the value is a
non-negative integer (the digit string parsed from the tool's output); no
upper bound is enforced — the value is within [0,100] only when the tool
reports one. -/
theorem C3_brightness_nonneg (i2c_bus user : String) (env : Nat → CallOutcome)
    (max_retries : Nat) (v : Int) (log : RunLog)
    (h : get_brightness i2c_bus user env max_retries = (.ok v, log)) : 0 ≤ v := by
  rw [get_brightness] at h
  cases hbus : extract_bus_number i2c_bus with
  | error e => rw [hbus] at h; simp at h
  | ok bn =>
    rw [hbus] at h
    exact getLoop_ok_nonneg i2c_bus user env max_retries 0 ⟨0, 0⟩ log v h

/-- C3 witness: the spec's own sample output yields 42, which is
non-negative. -/
theorem C3_brightness_nonneg_witness :
    get_brightness "/dev/i2c-4" "user"
        (fun _ => .exit 0
          "VCP code 0x10 (Brightness            ): current value = 42, max value = 100" "") 3
      = (.ok 42, ⟨1, 0⟩)
    ∧ (0 : Int) ≤ 42 :=
  ⟨rfl,
    C3_brightness_nonneg "/dev/i2c-4" "user"
      (fun _ => .exit 0
        "VCP code 0x10 (Brightness            ): current value = 42, max value = 100" "")
      3 42 ⟨1, 0⟩ rfl⟩

/-- C6: with a parsable bus number and every invocation timing out, both
operations perform exactly `max_retries` external calls (for `max_retries ≥ 1`,
the function's intended domain), never sleep, and fail with the timeout error
naming the affected bus. -/
theorem C6_timeout_retry_bound (i2c_bus user : String) (env : Nat → CallOutcome)
    (max_retries : Nat) (bn : String) (v : Int)
    (hbus : extract_bus_number i2c_bus = .ok bn)
    (henv : ∀ i, env i = .timeout)
    (hr : 1 ≤ max_retries) (hv0 : 0 ≤ v) (hv1 : v ≤ 100) :
    get_brightness i2c_bus user env max_retries
      = (.error (.runtimeError ("ddcutil getvcp timed out on " ++ i2c_bus)), ⟨max_retries, 0⟩)
    ∧ set_brightness i2c_bus v user env max_retries
      = (.error (.runtimeError ("ddcutil setvcp timed out on " ++ i2c_bus)), ⟨max_retries, 0⟩) := by
  constructor
  · rw [get_brightness, hbus]
    rw [getLoop_all_timeout i2c_bus user env henv max_retries 0 ⟨0, 0⟩ hr]
    simp
  · rw [set_brightness, if_pos (⟨hv0, hv1⟩ : 0 ≤ v ∧ v ≤ 100), hbus]
    rw [setLoop_all_timeout i2c_bus user env henv max_retries 0 ⟨0, 0⟩ hr]
    simp

/-- C6 witness: with `max_retries = 3` and every attempt timing out, both
operations make exactly 3 calls, sleep 0 times, and surface the timeout
naming bus `/dev/i2c-4`. -/
theorem C6_timeout_retry_bound_witness :
    get_brightness "/dev/i2c-4" "user" (fun _ => .timeout) 3
      = (.error (.runtimeError ("ddcutil getvcp timed out on " ++ "/dev/i2c-4")), ⟨3, 0⟩)
    ∧ set_brightness "/dev/i2c-4" 50 "user" (fun _ => .timeout) 3
      = (.error (.runtimeError ("ddcutil setvcp timed out on " ++ "/dev/i2c-4")), ⟨3, 0⟩) :=
  C6_timeout_retry_bound "/dev/i2c-4" "user" (fun _ => .timeout) 3 "4" 50
    rfl (fun _ => rfl) (by decide) (by decide) (by decide)

/-- C7 (counterexample): the claim "an identifier with no parsable trailing
number fails immediately with no external call" fails: `/dev/i2c-5x` does not
end in a digit, yet the bus number 5 is extracted (the regex searches
anywhere, not at the end) and the external call proceeds. -/
theorem C7_bus_extraction_counterexample :
    endsInDigit "/dev/i2c-5x" = false
    ∧ extract_bus_number "/dev/i2c-5x" = .ok "5"
    ∧ (get_brightness "/dev/i2c-5x" "user" (fun _ => .timeout) 3).2.calls = 3 :=
  ⟨rfl, rfl, rfl⟩

/-- C7 (amended): both operations extract the first `i2c-<digits>` occurrence
anywhere in the identifier; when none exists they fail immediately with the
invalid-argument error and make no external call, and when one exists (and at
least one attempt is allowed, with an in-range value for set) at least one
external call is made. -/
theorem C7_bus_extraction (s user : String) (env : Nat → CallOutcome) (r : Nat) :
    (∀ e : PyErr, extract_bus_number s = .error e →
        e = .valueError ("Invalid I2C bus format: " ++ s)
        ∧ get_brightness s user env r = (.error e, ⟨0, 0⟩)
        ∧ ∀ v : Int, 0 ≤ v → v ≤ 100 →
            set_brightness s v user env r = (.error e, ⟨0, 0⟩))
    ∧ (∀ bn : String, extract_bus_number s = .ok bn → 1 ≤ r →
        1 ≤ (get_brightness s user env r).2.calls
        ∧ ∀ v : Int, 0 ≤ v → v ≤ 100 →
            1 ≤ (set_brightness s v user env r).2.calls) := by
  constructor
  · intro e h
    refine ⟨?_, ?_, ?_⟩
    · rw [extract_bus_number] at h
      split at h
      · exact absurd h (by simp)
      · simp only [Except.error.injEq] at h
        exact h.symm
    · rw [get_brightness, h]
    · intro v hv0 hv1
      rw [set_brightness, if_pos (⟨hv0, hv1⟩ : 0 ≤ v ∧ v ≤ 100), h]
  · intro bn h hr
    constructor
    · have hp := getLoop_calls_pos s user env 0 r ⟨0, 0⟩ hr
      rw [get_brightness, h]
      exact hp
    · intro v hv0 hv1
      have hp := setLoop_calls_pos s user env 0 r ⟨0, 0⟩ hr
      rw [set_brightness, if_pos (⟨hv0, hv1⟩ : 0 ≤ v ∧ v ≤ 100), h]
      exact hp

/-- C7 witness: `hello` has no `i2c-<digits>` substring and fails with zero
calls; `/dev/i2c-4` extracts bus 4 and at least one call is made. -/
theorem C7_bus_extraction_witness :
    get_brightness "hello" "user" (fun _ => .timeout) 3
      = (.error (.valueError ("Invalid I2C bus format: " ++ "hello")), ⟨0, 0⟩)
    ∧ 1 ≤ (get_brightness "/dev/i2c-4" "user" (fun _ => .timeout) 3).2.calls :=
  ⟨((C7_bus_extraction "hello" "user" (fun _ => .timeout) 3).1
      (.valueError ("Invalid I2C bus format: " ++ "hello")) rfl).2.1,
    ((C7_bus_extraction "/dev/i2c-4" "user" (fun _ => .timeout) 3).2 "4" rfl
      (by decide)).1⟩

/-- C8: `set_brightness` with a value outside [0,100] fails with the
invalid-argument error before any external call (zero calls, zero sleeps),
for every bus identifier and environment. -/
theorem C8_range_validation (i2c_bus user : String) (env : Nat → CallOutcome)
    (max_retries : Nat) (v : Int) (hv : v < 0 ∨ 100 < v) :
    set_brightness i2c_bus v user env max_retries
      = (.error (.valueError ("Brightness value must be 0-100, got " ++ toString v)), ⟨0, 0⟩) := by
  have hneg : ¬ (0 ≤ v ∧ v ≤ 100) := by omega
  rw [set_brightness, if_neg hneg]

/-- C8 witness: value 101 on an arbitrary identifier fails immediately with
zero external calls. -/
theorem C8_range_validation_witness :
    ((101 : Int) < 0 ∨ 100 < (101 : Int))
    ∧ set_brightness "not-a-bus" 101 "user" (fun _ => .timeout) 3
      = (.error (.valueError ("Brightness value must be 0-100, got " ++ toString (101 : Int))),
          ⟨0, 0⟩) :=
  ⟨by decide,
    C8_range_validation "not-a-bus" "user" (fun _ => .timeout) 3 101 (by decide)⟩

end BrightnessAdjust
